import Mathlib

/-! Shallow embedding of `src/lib.rs` of the keywords-client crate.

The crate keeps a `HashMap<String, KeywordsCache>` cache of keyword rule
sets keyed by `format!("{}{}", filter, version.unwrap_or_default())`,
refreshes a missing or expired entry with one HTTP GET (`load_cache`),
and matches an input string against the cached rule set (`verify`):
strip everything matched by the `preprocess` regex, then test each
`keywords` pattern in order.

External effects are modelled by an explicit environment `Env`:
* the regex crate as an abstract engine (`RegexEngine`): pattern
  validity (`Regex::new` succeeding), `replace_all` with `""`, and
  `is_match`;
* `ureq::get(..).call()` plus header/body processing as a function from
  url/filter/version to a `FetchResponse`;
* `SystemTime::now()` as a clock indexed by the number of calls made so
  far (the `tick` field of `World`).

The Rust `verify` is recursive with no structural bound, so it is
embedded with explicit fuel; running out of fuel is the distinguished
outcome `VOutcome.diverge`, and a panic (a failed `.unwrap()` on
`Regex::new`) is `VOutcome.crash`.  The number of performed HTTP
requests is threaded through `World.fetches` so that frame and
fetch-count properties can be stated.
-/

/-- Error enum of the crate, in declaration order; the Rust discriminants
are 0,1,2,3,4 (`Padding` exists only to shift the real errors to
nonzero codes and is never constructed). -/
inductive KokoError where
  | Padding
  | AuthOrUrlMissing
  | CacheRefreshRequestFailure
  | CacheResultParseFailure
  | ParseError
deriving DecidableEq, Repr

/-- The `Keywords` payload: ordered pattern list plus one preprocessing
pattern. -/
structure Keywords where
  keywords : List String
  preprocess : String
deriving DecidableEq, Repr

/-- A cache entry: rule set plus absolute expiry instant. -/
structure KeywordsCache where
  expires_at : Nat
  keywords : Keywords
deriving DecidableEq, Repr

/-- The matcher state: the cache map (modelled as an association list
with replace-on-insert) and the endpoint url. -/
structure KokoKeywords where
  keywords : List (String × KeywordsCache)
  url : String
deriving DecidableEq, Repr

/-- `KokoKeywords::new`: empty cache with the given url. -/
def KokoKeywords.new (url : String) : KokoKeywords :=
  { keywords := [], url := url }

/-- `HashMap::get` on the modelled cache map. -/
def mapFind : List (String × KeywordsCache) → String → Option KeywordsCache
  | [], _ => none
  | (k, v) :: rest, key => if k = key then some v else mapFind rest key

/-- `HashMap::insert` on the modelled cache map: replaces the entry for
the key if present, otherwise appends it. -/
def mapInsert : List (String × KeywordsCache) → String → KeywordsCache →
    List (String × KeywordsCache)
  | [], k, v => [(k, v)]
  | (k', v') :: rest, k, v =>
    if k' = k then (k, v) :: rest else (k', v') :: mapInsert rest k v

/-- The cache key: `format!("\x7b\x7d\x7b\x7d", filter, version.unwrap_or_default())`,
i.e. plain string concatenation with the absent version read as `""`. -/
def cacheKey (filter : String) (version : Option String) : String :=
  filter ++ version.getD ""

/-- Abstract interface to the regex crate: whether `Regex::new` succeeds
on a pattern, and the behaviour of `replace_all` (with empty
replacement) and `is_match` of the compiled pattern. -/
structure RegexEngine where
  isValid : String → Bool
  replaceAll : String → String → String
  isMatch : String → String → Bool

/-- Outcome of one HTTP GET: `callFailure` models `request.call()`
returning `Err` (transport failure or non-success HTTP status, which
ureq also reports as `Err`); `success maxAge body` models an `Ok`
response whose cache-control max-age directive extracted as in
`load_cache` is `maxAge` (`none` when the header is missing or
unparseable) and whose JSON body parses to `body` (`none` when
structural validation fails). -/
inductive FetchResponse where
  | callFailure
  | success (maxAge : Option Nat) (body : Option Keywords)
deriving DecidableEq, Repr

/-- The external world: regex engine, HTTP fetch as a function of
(url, filter, version), and the wall clock indexed by how many
`SystemTime::now()` calls were made before. -/
structure Env where
  regex : RegexEngine
  fetch : String → String → Option String → FetchResponse
  clock : Nat → Nat

/-- Mutable state threaded through a call: the matcher, the count of
`SystemTime::now()` calls made so far (`tick`, indexing `Env.clock`),
and the count of HTTP requests performed (`fetches`). -/
structure World where
  matcher : KokoKeywords
  tick : Nat
  fetches : Nat
deriving Repr

/-- `CACHE_EXPIRATION_DEFAULT` in seconds. -/
def CACHE_EXPIRATION_DEFAULT : Nat := 3600

/-- `KokoKeywords::load_cache`: perform the GET, map a `call()` error to
`ParseError`, extract max-age with default 3600, map a body-parse error
to `ParseError`, and insert `{ keywords, expires_at := now + ttl }`
under the cache key.  Returns the Rust `KokoResult<()>` and the updated
world. -/
def load_cache (env : Env) (w : World) (filter : String) (version : Option String) :
    Except KokoError Unit × World :=
  let cache_key := cacheKey filter version
  let w1 : World := { w with fetches := w.fetches + 1 }
  match env.fetch w.matcher.url filter version with
  | .callFailure => (.error .ParseError, w1)
  | .success maxAge body =>
    let expires_in := maxAge.getD CACHE_EXPIRATION_DEFAULT
    match body with
    | none => (.error .ParseError, w1)
    | some kws =>
      let now := env.clock w1.tick
      let entry : KeywordsCache := { expires_at := now + expires_in, keywords := kws }
      (.ok (),
       { matcher := { keywords := mapInsert w1.matcher.keywords cache_key entry,
                      url := w1.matcher.url },
         tick := w1.tick + 1,
         fetches := w1.fetches })

/-- The inner `for` loop of `verify`: compile each pattern in order
(`none` models the panic of `Regex::new(..).unwrap()` on an invalid
pattern), return `some true` on the first match, `some false` when the
list is exhausted. -/
def matchLoop (eng : RegexEngine) : List String → String → Option Bool
  | [], _ => some false
  | p :: rest, s =>
    if eng.isValid p then
      if eng.isMatch p s then some true else matchLoop eng rest s
    else none

/-- Result of a `verify` call: a Rust `Ok(bool)`, a Rust `Err`, a panic
(`crash`), or exhaustion of the recursion fuel (`diverge`, the marker
for the unbounded Rust recursion not terminating within the fuel). -/
inductive VOutcome where
  | ok (b : Bool)
  | err (e : KokoError)
  | crash
  | diverge
deriving DecidableEq, Repr

/-- `KokoKeywords::verify`, with explicit fuel for the Rust
self-recursion: look the cache key up; on a present, unexpired entry
compile the preprocess pattern, strip it from the input and test each
keyword pattern in order; on a missing or expired entry run
`load_cache` (propagating its error) and recurse. -/
def verify (env : Env) : Nat → World → String → String → Option String → VOutcome × World
  | 0, w, _, _, _ => (.diverge, w)
  | fuel + 1, w, keyword, filter, version =>
    let cache_key := cacheKey filter version
    match mapFind w.matcher.keywords cache_key with
    | some keyword_cache =>
      let now := env.clock w.tick
      let w1 : World := { w with tick := w.tick + 1 }
      if now < keyword_cache.expires_at then
        if env.regex.isValid keyword_cache.keywords.preprocess then
          let keyword1 := env.regex.replaceAll keyword_cache.keywords.preprocess keyword
          match matchLoop env.regex keyword_cache.keywords.keywords keyword1 with
          | some b => (.ok b, w1)
          | none => (.crash, w1)
        else (.crash, w1)
      else
        match load_cache env w1 filter version with
        | (.error e, w2) => (.err e, w2)
        | (.ok _, w2) => verify env fuel w2 keyword filter version
    | none =>
      match load_cache env w filter version with
      | (.error e, w2) => (.err e, w2)
      | (.ok _, w2) => verify env fuel w2 keyword filter version

/-- The fixed default host `URL`. -/
def URL : String := "api.kokocares.org/keywords"

/-- `get_url`: resolve the endpoint from the two environment variables;
both set or neither set is `AuthOrUrlMissing`. -/
def get_url (urlEnv authEnv : Option String) : Except KokoError String :=
  match urlEnv, authEnv with
  | some _, some _ => .error .AuthOrUrlMissing
  | some url, none => .ok url
  | none, some auth => .ok ("https://" ++ auth ++ "@" ++ URL)
  | none, none => .error .AuthOrUrlMissing

/-- Content of the `MATCHER` global: `get_url().map(KokoKeywords::new)`,
computed once per process. -/
def matcherInit (urlEnv authEnv : Option String) : Except KokoError KokoKeywords :=
  (get_url urlEnv authEnv).map KokoKeywords.new

/-- `koko_keywords_match_inner`: propagate a stored configuration error
without touching the network, otherwise run `verify` on the stored
matcher.  `tick` says how many clock calls happened before this call;
the fetch counter starts at 0 so the world returned counts this call's
requests. -/
def koko_keywords_match_inner (matcherState : Except KokoError KokoKeywords)
    (env : Env) (fuel tick : Nat) (input filter : String) (version : Option String) :
    VOutcome × World :=
  match matcherState with
  | .error e => (.err e, { matcher := KokoKeywords.new "", tick := tick, fetches := 0 })
  | .ok m => verify env fuel { matcher := m, tick := tick, fetches := 0 } input filter version

/-- Rust discriminant of each `KokoError` variant (`e as isize`). -/
def errCode : KokoError → Nat
  | .Padding => 0
  | .AuthOrUrlMissing => 1
  | .CacheRefreshRequestFailure => 2
  | .CacheResultParseFailure => 3
  | .ParseError => 4

/-- `koko_keywords_match`: encode the inner result as the FFI integer,
`1` for a match, `0` for no match, `-(e as isize)` for an error;
`none` models the call not returning (panic or non-termination). -/
def koko_keywords_match (matcherState : Except KokoError KokoKeywords)
    (env : Env) (fuel tick : Nat) (input filter : String) (version : Option String) :
    Option Int :=
  match (koko_keywords_match_inner matcherState env fuel tick input filter version).1 with
  | .ok r => some (if r then 1 else 0)
  | .err e => some (-(errCode e : Int))
  | .crash => none
  | .diverge => none

/-- The Match Engine contract as §4.3 of the specification words it:
normalize by the preprocessing pattern, then report whether some
matching pattern matches the normalized string (first-match
short-circuit is observationally this disjunction). -/
def evaluateSpec (eng : RegexEngine) (rs : Keywords) (input : String) : Bool :=
  let normalized := eng.replaceAll rs.preprocess input
  rs.keywords.any fun p => eng.isMatch p normalized

/-- Boolean test that a fetch outcome is a failure (call error or body
structurally invalid). -/
def fetchFails : FetchResponse → Bool
  | .callFailure => true
  | .success _ none => true
  | .success _ (some _) => false

/-! Helper lemmas. -/

theorem mapFind_mapInsert_self (m : List (String × KeywordsCache)) (k : String)
    (v : KeywordsCache) : mapFind (mapInsert m k v) k = some v := by
  induction m with
  | nil => simp [mapInsert, mapFind]
  | cons hd tl ih =>
    obtain ⟨k', v'⟩ := hd
    by_cases h : k' = k
    · simp [mapInsert, h, mapFind]
    · simp [mapInsert, h, mapFind, ih]

theorem mapFind_mapInsert_ne (m : List (String × KeywordsCache)) (k k' : String)
    (v : KeywordsCache) (h : k ≠ k') :
    mapFind (mapInsert m k v) k' = mapFind m k' := by
  induction m with
  | nil => simp [mapInsert, mapFind, h]
  | cons hd tl ih =>
    obtain ⟨k0, v0⟩ := hd
    by_cases h0 : k0 = k
    · subst h0
      simp [mapInsert, mapFind, h]
    · simp [mapInsert, h0, mapFind, ih]

theorem matchLoop_all_valid (eng : RegexEngine) (pats : List String) (s : String)
    (hv : ∀ p ∈ pats, eng.isValid p = true) :
    matchLoop eng pats s = some (pats.any fun p => eng.isMatch p s) := by
  induction pats with
  | nil => simp [matchLoop]
  | cons p rest ih =>
    have hp : eng.isValid p = true := hv p (by simp)
    have hrest : ∀ q ∈ rest, eng.isValid q = true := fun q hq => hv q (by simp [hq])
    by_cases hm : eng.isMatch p s
    · simp [matchLoop, hp, hm]
    · simp [matchLoop, hp, hm, ih hrest]

theorem load_cache_error (env : Env) (w : World) (f : String) (v : Option String)
    (e : KokoError) (w' : World) (h : load_cache env w f v = (.error e, w')) :
    e = .ParseError ∧ w'.matcher = w.matcher ∧ w'.tick = w.tick ∧
      w'.fetches = w.fetches + 1 := by
  unfold load_cache at h
  rcases hf : env.fetch w.matcher.url f v with _ | ⟨ma, body⟩
  · rw [hf] at h
    simp at h
    obtain ⟨he, hw⟩ := h
    subst hw
    exact ⟨he.symm, rfl, rfl, rfl⟩
  · rw [hf] at h
    rcases body with _ | kws
    · simp at h
      obtain ⟨he, hw⟩ := h
      subst hw
      exact ⟨he.symm, rfl, rfl, rfl⟩
    · simp at h

/-- The cache entry `load_cache` builds on a successful fetch: expiry is
the clock reading at insertion time plus the max-age directive when
present, else the 3600-second default. -/
def newEntry (env : Env) (w : World) (ma : Option Nat) (kws : Keywords) : KeywordsCache :=
  { expires_at := env.clock w.tick + ma.getD CACHE_EXPIRATION_DEFAULT
    keywords := kws }

/-- The world after a successful `load_cache`: the new entry replaces
whatever was stored under the cache key, one clock call and one fetch
were consumed. -/
def postLoadWorld (env : Env) (w : World) (f : String) (v : Option String)
    (ma : Option Nat) (kws : Keywords) : World :=
  { matcher := { keywords := mapInsert w.matcher.keywords (cacheKey f v) (newEntry env w ma kws)
                 url := w.matcher.url }
    tick := w.tick + 1
    fetches := w.fetches + 1 }

theorem load_cache_success (env : Env) (w : World) (f : String) (v : Option String)
    (ma : Option Nat) (kws : Keywords)
    (hs : env.fetch w.matcher.url f v = .success ma (some kws)) :
    load_cache env w f v = (.ok (), postLoadWorld env w f v ma kws) := by
  unfold load_cache postLoadWorld newEntry
  rw [hs]

theorem verify_err_parseError (env : Env) : ∀ (fuel : Nat) (w : World)
    (k f : String) (v : Option String) (e : KokoError) (w' : World),
    verify env fuel w k f v = (.err e, w') → e = .ParseError := by
  intro fuel
  induction fuel with
  | zero => intro w k f v e w' h; simp [verify] at h
  | succ n ih =>
    intro w k f v e w' h
    simp only [verify] at h
    rcases hfind : mapFind w.matcher.keywords (cacheKey f v) with _ | kc
    · rw [hfind] at h
      rcases hl : load_cache env w f v with ⟨r, w2⟩
      rcases r with e2 | u
      · rw [hl] at h
        simp at h
        obtain ⟨he, -⟩ := h
        rw [← he]
        exact (load_cache_error env w f v e2 w2 hl).1
      · rw [hl] at h
        exact ih w2 k f v e w' h
    · rw [hfind] at h
      by_cases hts : env.clock w.tick < kc.expires_at
      · simp only [hts, if_true] at h
        by_cases hvp : env.regex.isValid kc.keywords.preprocess
        · simp only [hvp, if_true] at h
          rcases hm : matchLoop env.regex kc.keywords.keywords
              (env.regex.replaceAll kc.keywords.preprocess k) with _ | b
          · rw [hm] at h; simp at h
          · rw [hm] at h; simp at h
        · simp only [hvp] at h
          simp at h
      · simp only [hts, if_false] at h
        rcases hl : load_cache env { w with tick := w.tick + 1 } f v with ⟨r, w2⟩
        rcases r with e2 | u
        · rw [hl] at h
          simp at h
          obtain ⟨he, -⟩ := h
          rw [← he]
          exact (load_cache_error env { w with tick := w.tick + 1 } f v e2 w2 hl).1
        · rw [hl] at h
          exact ih w2 k f v e w' h

theorem get_url_error (u a : Option String) (e : KokoError)
    (h : get_url u a = .error e) : e = .AuthOrUrlMissing := by
  rcases u with _ | url <;> rcases a with _ | auth <;> simp [get_url] at h <;>
    exact h.symm

/-! Concrete regex engines, payloads and environments used by witnesses
and counterexamples. -/

/-- A regex engine in which every pattern is valid, stripping is the
identity and a pattern matches exactly the string equal to it. -/
def trivialEngine : RegexEngine :=
  { isValid := fun _ => true
    replaceAll := fun _ s => s
    isMatch := fun p s => p == s }

/-- A regex engine realizing the spec's preprocessing example: every
pattern valid, the pattern `"[0-9]"` strips every digit, and the pattern
`"^abc$"` matches exactly the string `"abc"`. -/
def digitsEngine : RegexEngine :=
  { isValid := fun _ => true
    replaceAll := fun p s =>
      if p = "[0-9]" then String.mk (s.data.filter fun c => !c.isDigit) else s
    isMatch := fun p s => if p = "^abc$" then s == "abc" else false }

/-- A regex engine in which exactly the pattern `"("` is rejected by
compilation. -/
def parenEngine : RegexEngine :=
  { isValid := fun p => p != "("
    replaceAll := fun _ s => s
    isMatch := fun _ _ => false }

/-- A small well-formed payload. -/
def kwX : Keywords := { keywords := ["k"], preprocess := "p" }

/-- A payload whose single matching pattern `"("` does not compile. -/
def kwBad : Keywords := { keywords := ["("], preprocess := "p" }

/-- The spec-example payload: strip digits, then match `"^abc$"`. -/
def kwC1 : Keywords := { keywords := ["^abc$"], preprocess := "[0-9]" }

/-- Initial world: empty cache, url `"u"`, no clock calls, no fetches. -/
def w0 : World := { matcher := KokoKeywords.new "u", tick := 0, fetches := 0 }

/-- World holding a fresh spec-example entry for filter `"f"`. -/
def wC1 : World :=
  { matcher := { keywords := [(cacheKey "f" none, { expires_at := 10, keywords := kwC1 })]
                 url := "u" }
    tick := 0
    fetches := 0 }

/-- Environment for the preprocessing example (the fetch is never
reached). -/
def envC1 : Env :=
  { regex := digitsEngine, fetch := fun _ _ _ => .callFailure, clock := fun _ => 0 }

/-- Environment in which every fetch succeeds with `max-age: 0`, under a
constant clock: the inserted entry is already expired when re-checked. -/
def envC2 : Env :=
  { regex := trivialEngine
    fetch := fun _ _ _ => .success (some 0) (some kwX)
    clock := fun _ => 5 }

/-- Environment in which every fetch succeeds with `max-age: 10`, under
a constant clock: a refreshed entry is fresh when re-checked. -/
def envFresh : Env :=
  { regex := trivialEngine
    fetch := fun _ _ _ => .success (some 10) (some kwX)
    clock := fun _ => 0 }

/-- Environment whose fetch delivers the non-compiling payload
`kwBad`. -/
def envC3 : Env :=
  { regex := parenEngine
    fetch := fun _ _ _ => .success (some 10) (some kwBad)
    clock := fun _ => 0 }

/-- Environment in which every `request.call()` fails. -/
def envCallFail : Env :=
  { regex := trivialEngine, fetch := fun _ _ _ => .callFailure, clock := fun _ => 0 }

/-- Environment in which the call succeeds, there is no usable max-age
header, and the body fails structural validation. -/
def envBadBody : Env :=
  { regex := trivialEngine, fetch := fun _ _ _ => .success none none, clock := fun _ => 0 }

/-- A concrete cache entry for key-collision statements. -/
def entryX : KeywordsCache := { expires_at := 7, keywords := kwX }

/-! Claim C1. -/

/-- C1: on a fresh cache hit, `verify` first strips every substring the
preprocessing pattern matches from the input and then tests the
normalized string against the matching patterns in the rule set's
order, returning true on the first match and false when none match —
i.e. it returns exactly `evaluateSpec` of the cached rule set, provided
(as the spec's construction-time validation guarantees) the involved
patterns compile. -/
theorem c1_evaluate_two_stage (env : Env) (w : World) (k f : String) (v : Option String)
    (kc : KeywordsCache) (fuel : Nat)
    (hhit : mapFind w.matcher.keywords (cacheKey f v) = some kc)
    (hfresh : env.clock w.tick < kc.expires_at)
    (hpre : env.regex.isValid kc.keywords.preprocess = true)
    (hpats : ∀ p ∈ kc.keywords.keywords, env.regex.isValid p = true) :
    (verify env (fuel + 1) w k f v).1 = .ok (evaluateSpec env.regex kc.keywords k) := by
  simp only [verify, hhit]
  rw [if_pos hfresh, if_pos hpre,
    matchLoop_all_valid env.regex kc.keywords.keywords _ hpats]
  simp [evaluateSpec]

/-- Witness for C1 at the spec's own test vectors: with the digit-strip
preprocessing pattern and matching pattern `"^abc$"` cached fresh,
input `"a1b2c3"` matches and input `"xabcx"` does not. -/
theorem c1_evaluate_two_stage_witness :
    (verify envC1 1 wC1 "a1b2c3" "f" none).1 = .ok true ∧
    (verify envC1 1 wC1 "xabcx" "f" none).1 = .ok false := by
  constructor
  · have h := c1_evaluate_two_stage envC1 wC1 "a1b2c3" "f" none
      { expires_at := 10, keywords := kwC1 } 0 (by decide) (by decide) (by decide)
      (by decide)
    rw [h]
    decide
  · have h := c1_evaluate_two_stage envC1 wC1 "xabcx" "f" none
      { expires_at := 10, keywords := kwC1 } 0 (by decide) (by decide) (by decide)
      (by decide)
    rw [h]
    decide

/-! Step lemmas unfolding one level of `verify` and `load_cache`. -/

theorem load_cache_callFailure (env : Env) (w : World) (f : String) (v : Option String)
    (hf : env.fetch w.matcher.url f v = .callFailure) :
    load_cache env w f v = (.error .ParseError, { w with fetches := w.fetches + 1 }) := by
  unfold load_cache
  rw [hf]

theorem load_cache_badBody (env : Env) (w : World) (f : String) (v : Option String)
    (ma : Option Nat) (hf : env.fetch w.matcher.url f v = .success ma none) :
    load_cache env w f v = (.error .ParseError, { w with fetches := w.fetches + 1 }) := by
  unfold load_cache
  rw [hf]

theorem verify_miss_err (env : Env) (w : World) (k f : String) (v : Option String)
    (n : Nat) (e : KokoError) (w2 : World)
    (hfind : mapFind w.matcher.keywords (cacheKey f v) = none)
    (hl : load_cache env w f v = (.error e, w2)) :
    verify env (n + 1) w k f v = (.err e, w2) := by
  simp only [verify, hfind, hl]

theorem verify_miss_ok (env : Env) (w : World) (k f : String) (v : Option String)
    (n : Nat) (w2 : World)
    (hfind : mapFind w.matcher.keywords (cacheKey f v) = none)
    (hl : load_cache env w f v = (.ok (), w2)) :
    verify env (n + 1) w k f v = verify env n w2 k f v := by
  simp only [verify, hfind, hl]

theorem verify_stale_err (env : Env) (w : World) (k f : String) (v : Option String)
    (n : Nat) (kc : KeywordsCache) (e : KokoError) (w2 : World)
    (hfind : mapFind w.matcher.keywords (cacheKey f v) = some kc)
    (hstale : ¬ env.clock w.tick < kc.expires_at)
    (hl : load_cache env { w with tick := w.tick + 1 } f v = (.error e, w2)) :
    verify env (n + 1) w k f v = (.err e, w2) := by
  simp only [verify, hfind, if_neg hstale, hl]

theorem verify_stale_ok (env : Env) (w : World) (k f : String) (v : Option String)
    (n : Nat) (kc : KeywordsCache) (w2 : World)
    (hfind : mapFind w.matcher.keywords (cacheKey f v) = some kc)
    (hstale : ¬ env.clock w.tick < kc.expires_at)
    (hl : load_cache env { w with tick := w.tick + 1 } f v = (.ok (), w2)) :
    verify env (n + 1) w k f v = verify env n w2 k f v := by
  simp only [verify, hfind, if_neg hstale, hl]

theorem verify_fresh_step (env : Env) (w : World) (k f : String) (v : Option String)
    (n : Nat) (kc : KeywordsCache)
    (hfind : mapFind w.matcher.keywords (cacheKey f v) = some kc)
    (hfresh : env.clock w.tick < kc.expires_at) :
    (verify env (n + 1) w k f v).1 ≠ .diverge ∧
    (∀ e, (verify env (n + 1) w k f v).1 ≠ .err e) ∧
    (verify env (n + 1) w k f v).2 = { w with tick := w.tick + 1 } := by
  simp only [verify, hfind, if_pos hfresh]
  cases hvp : env.regex.isValid kc.keywords.preprocess
  · simp [hvp]
  · cases hm : matchLoop env.regex kc.keywords.keywords
        (env.regex.replaceAll kc.keywords.preprocess k) <;> simp [hvp, hm]

/-! Claim C2. -/

/-- C2 counterexample: with a fetch that always succeeds with
`max-age: 0` under a constant clock, the just-inserted entry is already
expired at the retried lookup, and `verify` fetches again and again
instead of proceeding with it: unfolding the recursion three times
performs three fetches in one call and still has not returned, refuting
both "at most one refresh is attempted" and the claimed termination
cap. -/
theorem c2_counterexample_unbounded_refresh :
    (verify envC2 3 w0 "x" "f" none).1 = .diverge ∧
    (verify envC2 3 w0 "x" "f" none).2.fetches = 3 := by
  decide

/-- C2 as amended: one refresh per call is guaranteed only when every
successful fetch yields an entry that is still fresh at the next clock
reading; under that proviso a call resolves within two unfoldings
(no divergence) and performs at most one fetch.  Without it the code
keeps refetching (see the counterexample) rather than proceeding with
the just-inserted entry. -/
theorem c2_amended_single_refresh (env : Env) (w : World) (k f : String)
    (v : Option String) (n : Nat)
    (H : ∀ ma kws, env.fetch w.matcher.url f v = .success ma (some kws) →
      ∀ t, env.clock (t + 1) < env.clock t + ma.getD CACHE_EXPIRATION_DEFAULT) :
    (verify env (n + 1 + 1) w k f v).1 ≠ .diverge ∧
    (verify env (n + 1 + 1) w k f v).2.fetches ≤ w.fetches + 1 := by
  rcases hfind : mapFind w.matcher.keywords (cacheKey f v) with _ | kc
  · rcases hf : env.fetch w.matcher.url f v with _ | ⟨ma, body⟩
    · rw [verify_miss_err env w k f v (n + 1) .ParseError _ hfind
        (load_cache_callFailure env w f v hf)]
      simp
    · rcases body with _ | kws
      · rw [verify_miss_err env w k f v (n + 1) .ParseError _ hfind
          (load_cache_badBody env w f v ma hf)]
        simp
      · rw [verify_miss_ok env w k f v (n + 1) _ hfind
          (load_cache_success env w f v ma kws hf)]
        have hstep := verify_fresh_step env (postLoadWorld env w f v ma kws) k f v n
          (newEntry env w ma kws)
          (mapFind_mapInsert_self w.matcher.keywords (cacheKey f v) (newEntry env w ma kws))
          (H ma kws hf w.tick)
        refine ⟨hstep.1, ?_⟩
        rw [hstep.2.2]
        simp [postLoadWorld]
  · by_cases hts : env.clock w.tick < kc.expires_at
    · have hstep := verify_fresh_step env w k f v (n + 1) kc hfind hts
      refine ⟨hstep.1, ?_⟩
      rw [hstep.2.2]
      simp
    · rcases hf : env.fetch w.matcher.url f v with _ | ⟨ma, body⟩
      · rw [verify_stale_err env w k f v (n + 1) kc .ParseError _ hfind hts
          (load_cache_callFailure env { w with tick := w.tick + 1 } f v hf)]
        simp
      · rcases body with _ | kws
        · rw [verify_stale_err env w k f v (n + 1) kc .ParseError _ hfind hts
            (load_cache_badBody env { w with tick := w.tick + 1 } f v ma hf)]
          simp
        · rw [verify_stale_ok env w k f v (n + 1) kc _ hfind hts
            (load_cache_success env { w with tick := w.tick + 1 } f v ma kws hf)]
          have hstep := verify_fresh_step env
            (postLoadWorld env { w with tick := w.tick + 1 } f v ma kws) k f v n
            (newEntry env { w with tick := w.tick + 1 } ma kws)
            (mapFind_mapInsert_self w.matcher.keywords (cacheKey f v)
              (newEntry env { w with tick := w.tick + 1 } ma kws))
            (H ma kws hf (w.tick + 1))
          refine ⟨hstep.1, ?_⟩
          rw [hstep.2.2]
          simp [postLoadWorld]

/-- Witness for the amended C2: in an environment whose fetches always
deliver `max-age: 10` under a constant clock, a call on an empty cache
finishes within fuel 2 and performs at most one fetch. -/
theorem c2_amended_single_refresh_witness :
    (verify envFresh 2 w0 "x" "f" none).1 ≠ .diverge ∧
    (verify envFresh 2 w0 "x" "f" none).2.fetches ≤ w0.fetches + 1 := by
  have h := c2_amended_single_refresh envFresh w0 "x" "f" none 0 ?_
  · exact h
  · intro ma kws hf t
    simp only [envFresh] at hf
    obtain ⟨h1, -⟩ := FetchResponse.success.inj hf
    rw [← h1]
    simp [envFresh]

/-! Claim C3. -/

/-- C3 counterexample: insertion does not validate patterns.  With an
engine that rejects the pattern `"("`, a fetch delivering that pattern
is cached successfully, the invalid pattern is stored verbatim, and the
next `verify` reaches the pattern-compilation failure branch (the
`unwrap` panic, modelled as `crash`) — the branch the claim calls
unreachable. -/
theorem c3_counterexample_lazy_validation :
    (load_cache envC3 w0 "f" none).1 = .ok () ∧
    mapFind (load_cache envC3 w0 "f" none).2.matcher.keywords (cacheKey "f" none)
        = some { expires_at := 10, keywords := kwBad } ∧
    parenEngine.isValid "(" = false ∧
    (verify envC3 2 w0 "x" "f" none).1 = .crash :=
  ⟨rfl, rfl, rfl, rfl⟩

/-- C3 as amended: patterns are not validated when a rule set is
inserted — `load_cache` caches any structurally well-formed payload
verbatim, valid or not — and compilation happens lazily during the
match step, where an invalid pattern reached by the loop makes the
match step fail (panic) rather than being unreachable. -/
theorem c3_amended_lazy_validation (env : Env) (w : World) (f : String)
    (v : Option String) (ma : Option Nat) (kws : Keywords)
    (hs : env.fetch w.matcher.url f v = .success ma (some kws)) :
    ((load_cache env w f v).1 = .ok () ∧
     mapFind (load_cache env w f v).2.matcher.keywords (cacheKey f v)
        = some (newEntry env w ma kws)) ∧
    (∀ eng p rest s, RegexEngine.isValid eng p = false →
      matchLoop eng (p :: rest) s = none) := by
  constructor
  · rw [load_cache_success env w f v ma kws hs]
    exact ⟨rfl, mapFind_mapInsert_self _ _ _⟩
  · intro eng p rest s hv
    simp [matchLoop, hv]

/-- Witness for the amended C3: the environment delivering the invalid
pattern `"("` still caches it. -/
theorem c3_amended_lazy_validation_witness :
    ((load_cache envC3 w0 "f" none).1 = .ok () ∧
     mapFind (load_cache envC3 w0 "f" none).2.matcher.keywords (cacheKey "f" none)
        = some (newEntry envC3 w0 (some 10) kwBad)) ∧
    (∀ eng p rest s, RegexEngine.isValid eng p = false →
      matchLoop eng (p :: rest) s = none) :=
  c3_amended_lazy_validation envC3 w0 "f" none (some 10) kwBad rfl

/-! Claim C4. -/

/-- C4 counterexample: the cache key is the bare concatenation of
filter and version, so the distinct selectors `("ab", some "c")` and
`("abc", none)` produce the same key and address the same cache entry,
and the absent version is not distinct from a present empty version. -/
theorem c4_counterexample_key_collision :
    cacheKey "ab" (some "c") = cacheKey "abc" none ∧
    (("ab", some "c") : String × Option String) ≠ ("abc", none) ∧
    cacheKey "a" (some "") = cacheKey "a" none ∧
    (some "" : Option String) ≠ none ∧
    mapFind (mapInsert [] (cacheKey "ab" (some "c")) entryX) (cacheKey "abc" none)
        = some entryX := by
  decide

/-- C4 as amended: two selectors address the same cache entry iff the
concatenations `filter ++ (version or "")` coincide — equal keys make
`lookup` after `insert` hit the inserted entry, different keys leave
other entries untouched; component-wise equality of selectors is
sufficient but not necessary for key equality. -/
theorem c4_amended_concatenated_keys (f f' : String) (v v' : Option String)
    (st : List (String × KeywordsCache)) (entry : KeywordsCache) :
    (cacheKey f v = cacheKey f' v' ↔ f ++ v.getD "" = f' ++ v'.getD "") ∧
    (cacheKey f v = cacheKey f' v' →
      mapFind (mapInsert st (cacheKey f v) entry) (cacheKey f' v') = some entry) ∧
    (cacheKey f v ≠ cacheKey f' v' →
      mapFind (mapInsert st (cacheKey f v) entry) (cacheKey f' v')
        = mapFind st (cacheKey f' v')) := by
  refine ⟨Iff.rfl, ?_, ?_⟩
  · intro h
    rw [← h]
    exact mapFind_mapInsert_self st (cacheKey f v) entry
  · intro h
    exact mapFind_mapInsert_ne st (cacheKey f v) (cacheKey f' v') entry h

/-- Witness for the amended C4 at the colliding pair of selectors. -/
theorem c4_amended_concatenated_keys_witness :
    mapFind (mapInsert [] (cacheKey "ab" (some "c")) entryX) (cacheKey "abc" none)
        = some entryX :=
  (c4_amended_concatenated_keys "ab" "abc" (some "c") none [] entryX).2.1 (by decide)

/-! Claim C5. -/

/-- C5: the code collapses the two failure causes.  A `request.call()`
failure (transport or HTTP-level) and a structurally invalid body both
yield `KokoError::ParseError`, although the error enum declares the
distinct variants `CacheRefreshRequestFailure` and
`CacheResultParseFailure` for exactly these causes; the two failures
are therefore not distinguishable at the call boundary. -/
theorem c5_both_failures_collapse_to_parse_error :
    (load_cache envCallFail w0 "f" none).1 = .error .ParseError ∧
    (load_cache envBadBody w0 "f" none).1 = .error .ParseError ∧
    KokoError.ParseError ≠ .CacheRefreshRequestFailure ∧
    KokoError.ParseError ≠ .CacheResultParseFailure :=
  ⟨rfl, rfl, by decide, by decide⟩

/-! Claim C6. -/

/-- C6: when the fetch for a selector fails (call failure or invalid
payload), `load_cache` returns the error and leaves the matcher — cache
map and url — untouched, and `verify` on a missing or stale entry
propagates that error to its caller with the matcher equally
untouched: no entry is inserted, removed or altered. -/
theorem c6_failed_refresh_frame (env : Env) (w : World) (k f : String)
    (v : Option String) (n : Nat)
    (hfail : fetchFails (env.fetch w.matcher.url f v) = true)
    (hstale : ∀ kc, mapFind w.matcher.keywords (cacheKey f v) = some kc →
      ¬ env.clock w.tick < kc.expires_at) :
    ((load_cache env w f v).1 = .error .ParseError ∧
     (load_cache env w f v).2.matcher = w.matcher) ∧
    ((verify env (n + 1) w k f v).1 = .err .ParseError ∧
     (verify env (n + 1) w k f v).2.matcher = w.matcher) := by
  rcases hf : env.fetch w.matcher.url f v with _ | ⟨ma, body⟩
  · refine ⟨?_, ?_⟩
    · rw [load_cache_callFailure env w f v hf]
      exact ⟨rfl, rfl⟩
    · rcases hfind : mapFind w.matcher.keywords (cacheKey f v) with _ | kc
      · rw [verify_miss_err env w k f v n .ParseError _ hfind
          (load_cache_callFailure env w f v hf)]
        exact ⟨rfl, rfl⟩
      · rw [verify_stale_err env w k f v n kc .ParseError _ hfind (hstale kc hfind)
          (load_cache_callFailure env { w with tick := w.tick + 1 } f v hf)]
        exact ⟨rfl, rfl⟩
  · rcases body with _ | kws
    · refine ⟨?_, ?_⟩
      · rw [load_cache_badBody env w f v ma hf]
        exact ⟨rfl, rfl⟩
      · rcases hfind : mapFind w.matcher.keywords (cacheKey f v) with _ | kc
        · rw [verify_miss_err env w k f v n .ParseError _ hfind
            (load_cache_badBody env w f v ma hf)]
          exact ⟨rfl, rfl⟩
        · rw [verify_stale_err env w k f v n kc .ParseError _ hfind (hstale kc hfind)
            (load_cache_badBody env { w with tick := w.tick + 1 } f v ma hf)]
          exact ⟨rfl, rfl⟩
    · rw [hf] at hfail
      simp [fetchFails] at hfail

/-- Witness for C6: a failing call on an empty cache propagates the
error and leaves the matcher unchanged. -/
theorem c6_failed_refresh_frame_witness :
    ((load_cache envCallFail w0 "f" none).1 = .error .ParseError ∧
     (load_cache envCallFail w0 "f" none).2.matcher = w0.matcher) ∧
    ((verify envCallFail 1 w0 "x" "f" none).1 = .err .ParseError ∧
     (verify envCallFail 1 w0 "x" "f" none).2.matcher = w0.matcher) :=
  c6_failed_refresh_frame envCallFail w0 "x" "f" none 0 rfl
    (fun _ h => Option.noConfusion h)

/-! Claim C7. -/

/-- Environment whose fetch succeeds with no usable max-age header. -/
def envNoHeader : Env :=
  { regex := trivialEngine
    fetch := fun _ _ _ => .success none (some kwX)
    clock := fun _ => 0 }

/-- C7: on a successful fetch the inserted entry's expiry is the clock
reading at completion plus the max-age value when the cache-control
header yields one, else exactly 3600 seconds, and the new entry
wholly replaces whatever the cache held for that key. -/
theorem c7_insert_ttl_and_replace (env : Env) (w : World) (f : String)
    (v : Option String) (ma : Option Nat) (kws : Keywords)
    (hs : env.fetch w.matcher.url f v = .success ma (some kws)) :
    load_cache env w f v = (.ok (), postLoadWorld env w f v ma kws) ∧
    (∀ a, ma = some a → (newEntry env w ma kws).expires_at = env.clock w.tick + a) ∧
    (ma = none → (newEntry env w ma kws).expires_at = env.clock w.tick + 3600) ∧
    mapFind (postLoadWorld env w f v ma kws).matcher.keywords (cacheKey f v)
        = some (newEntry env w ma kws) := by
  refine ⟨load_cache_success env w f v ma kws hs, ?_, ?_, ?_⟩
  · intro a h
    subst h
    rfl
  · intro h
    subst h
    rfl
  · exact mapFind_mapInsert_self w.matcher.keywords (cacheKey f v) (newEntry env w ma kws)

/-- Witness for C7: with `max-age: 10` the entry expires 10 seconds
after the insertion-time clock reading; with no usable header it
expires 3600 seconds after it; in both cases the lookup returns the
new entry. -/
theorem c7_insert_ttl_and_replace_witness :
    (load_cache envFresh w0 "f" none = (.ok (), postLoadWorld envFresh w0 "f" none (some 10) kwX) ∧
     (newEntry envFresh w0 (some 10) kwX).expires_at = envFresh.clock w0.tick + 10) ∧
    ((newEntry envNoHeader w0 none kwX).expires_at = envNoHeader.clock w0.tick + 3600 ∧
     mapFind (postLoadWorld envNoHeader w0 "f" none none kwX).matcher.keywords
        (cacheKey "f" none) = some (newEntry envNoHeader w0 none kwX)) := by
  have h1 := c7_insert_ttl_and_replace envFresh w0 "f" none (some 10) kwX rfl
  have h2 := c7_insert_ttl_and_replace envNoHeader w0 "f" none none kwX rfl
  exact ⟨⟨h1.1, h1.2.1 10 rfl⟩, ⟨h2.2.2.1 rfl, h2.2.2.2⟩⟩

/-! Claim C8. -/

/-- C8: configuration resolution accepts exactly one of the two
environment forms — `get_url` fails with `AuthOrUrlMissing` (the
configuration-error kind) precisely when both variables are set or
neither is — and once the process-wide matcher holds that error, every
call of the inner match operation returns it immediately with zero
network fetches, whatever the environment, fuel, clock position or
arguments. -/
theorem c8_config_exactly_one (u a : Option String) :
    (get_url u a = .error .AuthOrUrlMissing ↔
      ((u.isSome = true ∧ a.isSome = true) ∨ (u = none ∧ a = none))) ∧
    (∀ e, get_url u a = .error e →
      ∀ env fuel tick input f v,
        (koko_keywords_match_inner (matcherInit u a) env fuel tick input f v).1 = .err e ∧
        (koko_keywords_match_inner (matcherInit u a) env fuel tick input f v).2.fetches
          = 0) := by
  constructor
  · rcases u with _ | url <;> rcases a with _ | auth <;> simp [get_url]
  · intro e he env fuel tick input f v
    simp [koko_keywords_match_inner, matcherInit, he, Except.map]

/-- Witness for C8: with neither variable set, and with both set, the
inner operation fails with `AuthOrUrlMissing` and performs no fetch. -/
theorem c8_config_exactly_one_witness :
    ((koko_keywords_match_inner (matcherInit none none) envFresh 5 0 "x" "f" none).1
        = .err .AuthOrUrlMissing ∧
     (koko_keywords_match_inner (matcherInit none none) envFresh 5 0 "x" "f" none).2.fetches
        = 0) ∧
    (koko_keywords_match_inner (matcherInit (some "u") (some "t")) envFresh 5 0 "x" "f"
        none).1 = .err .AuthOrUrlMissing := by
  have h1 := (c8_config_exactly_one none none).2 .AuthOrUrlMissing rfl envFresh 5 0 "x" "f" none
  have h2 := (c8_config_exactly_one (some "u") (some "t")).2 .AuthOrUrlMissing rfl
    envFresh 5 0 "x" "f" none
  exact ⟨⟨h1.1, h1.2⟩, h2.1⟩

/-! Claim C9. -/

theorem inner_err_producible (u a : Option String) (env : Env) (fuel tick : Nat)
    (input f : String) (v : Option String) (e : KokoError)
    (h : (koko_keywords_match_inner (matcherInit u a) env fuel tick input f v).1 = .err e) :
    e = .AuthOrUrlMissing ∨ e = .ParseError := by
  unfold koko_keywords_match_inner matcherInit at h
  rcases hg : get_url u a with e' | url
  · rw [hg] at h
    simp only [Except.map] at h
    simp at h
    left
    rw [← h]
    exact get_url_error u a e' hg
  · rw [hg] at h
    simp only [Except.map] at h
    right
    exact verify_err_parseError env fuel
      { matcher := KokoKeywords.new url, tick := tick, fetches := 0 } input f v e
      (verify env fuel { matcher := KokoKeywords.new url, tick := tick, fetches := 0 }
        input f v).2 (by rw [← h])

theorem errCode_injective : Function.Injective errCode := by
  intro x y h
  cases x <;> cases y <;> simp_all [errCode]

/-- C9: the foreign-call encoding returns `some 1` exactly when the
inner classification is a match, `some 0` exactly when it is a
no-match, and on every error the inner operation can actually produce
it returns the strictly negative code `-(e as isize)`; distinct error
kinds have distinct codes (`errCode` is injective), so no producible
error shares its code with another error or with the match/no-match
values. -/
theorem c9_ffi_encoding (u a : Option String) (env : Env) (fuel tick : Nat)
    (input f : String) (v : Option String) :
    (koko_keywords_match (matcherInit u a) env fuel tick input f v = some 1 ↔
      (koko_keywords_match_inner (matcherInit u a) env fuel tick input f v).1 = .ok true) ∧
    (koko_keywords_match (matcherInit u a) env fuel tick input f v = some 0 ↔
      (koko_keywords_match_inner (matcherInit u a) env fuel tick input f v).1 = .ok false) ∧
    (∀ e, (koko_keywords_match_inner (matcherInit u a) env fuel tick input f v).1 = .err e →
      koko_keywords_match (matcherInit u a) env fuel tick input f v
          = some (-(errCode e : Int)) ∧ (-(errCode e : Int)) < 0) ∧
    Function.Injective errCode := by
  rcases ho : (koko_keywords_match_inner (matcherInit u a) env fuel tick input f v).1
    with b | e | _ | _
  · cases b
    · refine ⟨?_, ?_, ?_, errCode_injective⟩
      · simp [koko_keywords_match, ho]
      · simp [koko_keywords_match, ho]
      · intro e he
        exact absurd he (by simp)
    · refine ⟨?_, ?_, ?_, errCode_injective⟩
      · simp [koko_keywords_match, ho]
      · simp [koko_keywords_match, ho]
      · intro e he
        exact absurd he (by simp)
  · have hprod := inner_err_producible u a env fuel tick input f v e ho
    refine ⟨?_, ?_, ?_, errCode_injective⟩
    · simp only [koko_keywords_match, ho]
      constructor
      · intro hx
        simp at hx
        rcases hprod with he | he <;> subst he <;> simp [errCode] at hx
      · intro hx
        simp at hx
    · simp only [koko_keywords_match, ho]
      constructor
      · intro hx
        simp at hx
        rcases hprod with he | he <;> subst he <;> simp [errCode] at hx
      · intro hx
        simp at hx
    · intro e' he'
      have : e = e' := by
        injection he'
      subst this
      refine ⟨by simp [koko_keywords_match, ho], ?_⟩
      rcases hprod with he | he <;> subst he <;> decide
  · refine ⟨?_, ?_, ?_, errCode_injective⟩
    · simp [koko_keywords_match, ho]
    · simp [koko_keywords_match, ho]
    · intro e he
      exact absurd he (by simp)
  · refine ⟨?_, ?_, ?_, errCode_injective⟩
    · simp [koko_keywords_match, ho]
    · simp [koko_keywords_match, ho]
    · intro e he
      exact absurd he (by simp)

/-- Witness for C9: with the auth-token configuration and a fetch
delivering the pattern `"k"`, the input `"k"` matches and the call
returns `1`; and on a configuration error the call returns the
distinct negative code `-1`. -/
theorem c9_ffi_encoding_witness :
    koko_keywords_match (matcherInit none (some "t")) envFresh 2 0 "k" "f" none = some 1 ∧
    koko_keywords_match (matcherInit none none) envFresh 2 0 "k" "f" none
        = some (-(errCode .AuthOrUrlMissing : Int)) := by
  constructor
  · exact (c9_ffi_encoding none (some "t") envFresh 2 0 "k" "f" none).1.mpr (by decide)
  · exact ((c9_ffi_encoding none none envFresh 2 0 "k" "f" none).2.2.1
      .AuthOrUrlMissing (by decide)).1

/-! Claim C10. -/

/-- C10 counterexample: the first call on a selector never before
queried does not always perform exactly one remote fetch.  Under a
fetch answering `max-age: 0` with a constant clock, the entry inserted
by the first call's refresh is already expired at the in-call retried
lookup, so the very same first call fetches again: two unfoldings of
the call already count two fetches, and the call has not returned. -/
theorem c10_counterexample_first_call_refetches :
    mapFind w0.matcher.keywords (cacheKey "f" none) = none ∧
    (verify envC2 2 w0 "x" "f" none).2.fetches = 2 ∧
    (verify envC2 2 w0 "x" "f" none).1 = .diverge := by
  decide

/-- C10 as amended: for a selector with no cache entry, the first call
performs exactly one fetch and stores the fetched rule set, provided
the fetch succeeds and the inserted entry is still fresh at the
in-call retried lookup (without that proviso the call refetches, see
the counterexample); a second call on the resulting state, made while
the entry is still fresh, performs zero additional fetches and leaves
the cache store unchanged. -/
theorem c10_first_fetch_then_cached (env : Env) (w : World) (k f : String)
    (v : Option String) (n m : Nat) (ma : Option Nat) (kws : Keywords)
    (hmiss : mapFind w.matcher.keywords (cacheKey f v) = none)
    (hfetch : env.fetch w.matcher.url f v = .success ma (some kws))
    (hfresh1 : env.clock (w.tick + 1) < env.clock w.tick + ma.getD CACHE_EXPIRATION_DEFAULT)
    (hfresh2 : env.clock (w.tick + 1 + 1) <
      env.clock w.tick + ma.getD CACHE_EXPIRATION_DEFAULT) :
    (verify env (n + 1 + 1) w k f v).2.fetches = w.fetches + 1 ∧
    (verify env (n + 1 + 1) w k f v).2.matcher.keywords
        = mapInsert w.matcher.keywords (cacheKey f v) (newEntry env w ma kws) ∧
    (verify env (m + 1) ((verify env (n + 1 + 1) w k f v).2) k f v).2.fetches
        = (verify env (n + 1 + 1) w k f v).2.fetches ∧
    (verify env (m + 1) ((verify env (n + 1 + 1) w k f v).2) k f v).2.matcher
        = (verify env (n + 1 + 1) w k f v).2.matcher := by
  have hstep1 := verify_fresh_step env (postLoadWorld env w f v ma kws) k f v n
    (newEntry env w ma kws)
    (mapFind_mapInsert_self w.matcher.keywords (cacheKey f v) (newEntry env w ma kws))
    hfresh1
  have h1 : (verify env (n + 1 + 1) w k f v).2
      = { postLoadWorld env w f v ma kws with
          tick := (postLoadWorld env w f v ma kws).tick + 1 } := by
    rw [verify_miss_ok env w k f v (n + 1) _ hmiss
      (load_cache_success env w f v ma kws hfetch)]
    exact hstep1.2.2
  have hstep2 := verify_fresh_step env
    ({ postLoadWorld env w f v ma kws with
       tick := (postLoadWorld env w f v ma kws).tick + 1 }) k f v m
    (newEntry env w ma kws)
    (mapFind_mapInsert_self w.matcher.keywords (cacheKey f v) (newEntry env w ma kws))
    hfresh2
  refine ⟨?_, ?_, ?_, ?_⟩
  · rw [h1]
    simp [postLoadWorld]
  · rw [h1]
    simp [postLoadWorld]
  · rw [h1, hstep2.2.2]
  · rw [h1, hstep2.2.2]

/-- Witness for C10: starting from the empty cache under the
`max-age: 10` environment, the first call does one fetch, the second
does none and leaves the matcher as it was. -/
theorem c10_first_fetch_then_cached_witness :
    (verify envFresh 2 w0 "x" "f" none).2.fetches = w0.fetches + 1 ∧
    (verify envFresh 2 ((verify envFresh 2 w0 "x" "f" none).2) "x" "f" none).2.fetches
        = (verify envFresh 2 w0 "x" "f" none).2.fetches ∧
    (verify envFresh 2 ((verify envFresh 2 w0 "x" "f" none).2) "x" "f" none).2.matcher
        = (verify envFresh 2 w0 "x" "f" none).2.matcher := by
  have h := c10_first_fetch_then_cached envFresh w0 "x" "f" none 0 1 (some 10) kwX
    rfl rfl (by decide) (by decide)
  exact ⟨h.1, h.2.2.1, h.2.2.2⟩
